import Mathlib

/-
Verification of the webhook relay server (heroku_webhook_server.py).

The server receives TradingView webhooks on /webhook, normalizes the body
through an ordered fallback chain, enriches the resulting mapping with
receipt metadata, forwards it once to LOCAL_SERVER_URL/webhook with a
10-second timeout, and acknowledges the caller with HTTP 200 regardless of
the delivery outcome.  A /test endpoint forwards a fixed synthetic payload.

The embedding below translates the handler bodies into pure Lean functions.
Library primitives whose behaviour is decided outside this file (the JSON
parser, the form parser of the web framework, the wall clock, and the
downstream HTTP endpoint) are modelled as oracle inputs: the request record
carries the outcome the parser would produce for its body, and the
downstream endpoint is a value describing how the single forward call ends.
-/

namespace HerokuWebhook

/-- JSON-compatible values, as produced by the JSON parser and held in the
Python variable webhook_data.  Numbers are modelled as integers, which is
adequate for every claim under scrutiny (status codes, prices, epoch
timestamps). -/
inductive Json where
  | null : Json
  | bool (b : Bool) : Json
  | num (n : Int) : Json
  | str (s : String) : Json
  | arr (items : List Json) : Json
  | obj (fields : List (String × Json)) : Json

/-- True exactly when the value is a key-value mapping (a Python dict).
Item assignment, as performed by the enrichment step, succeeds only on
mappings and raises TypeError on every other value. -/
def Json.isObj : Json → Bool
  | Json.obj _ => true
  | _ => false

/-- Lookup of a top-level key in a JSON object; none on non-objects. -/
def Json.getKey : Json → String → Option Json
  | Json.obj fields, k => fields.lookup k
  | _, _ => none

/-- Python dict item assignment on an association list: update the value in
place when the key is present, append the pair at the end otherwise.  This
is the insertion-order semantics of dict assignment used at lines 63-65 of
the source. -/
def setKey : List (String × Json) → String → Json → List (String × Json)
  | [], k, v => [(k, v)]
  | (k2, v2) :: rest, k, v =>
    if k2 == k then (k2, v) :: rest else (k2, v2) :: setKey rest k v

/-- The keys of an association list, in order. -/
def objKeys (m : List (String × Json)) : List String :=
  m.map Prod.fst

/-- Does pat occur at the head of s (character-wise match)? -/
def leadMatch : List Char → List Char → Bool
  | [], _ => true
  | _ :: _, [] => false
  | p :: ps, c :: cs => p == c && leadMatch ps cs

/-- Does pat occur anywhere inside s? -/
def occursIn (pat : List Char) : List Char → Bool
  | [] => pat.isEmpty
  | c :: rest => leadMatch pat (c :: rest) || occursIn pat rest

/-- Python substring membership, as in the line 49 test
(the string application/json in content_type). -/
def containsSubstr (s pat : String) : Bool :=
  occursIn pat.data s.data

/-- An inbound HTTP request as seen by webhook_endpoint.  The fields
bodyJson, formFields and rawText are the oracle outcomes of the three body
decoders the handler may invoke: bodyJson is the result of a strict JSON
parse of the body text (none when the parse raises, used both by
request.get_json at line 50 and by json.loads at line 58), formFields is
what request.form.to_dict returns at line 53 (form values are strings), and
rawText is request.get_data(as_text=True) at line 56. -/
structure WebRequest where
  contentType : String
  xForwardedFor : Option String
  remoteAddr : String
  bodyJson : Option Json
  formFields : List (String × String)
  rawText : String

/-- The wall-clock readings taken during one request: time.time() at line
63, time.strftime at line 64, and time.time() again at line 97. -/
structure Clock where
  receivedAt : Int
  utcString : String
  responseAt : Int

/-- How the single downstream forward call ends: either the downstream
endpoint answers with some HTTP status code, or the call fails at the
network level (requests.exceptions.RequestException) with the given
message. -/
inductive DownstreamBehavior where
  | responds (status : Nat) : DownstreamBehavior
  | netError (msg : String) : DownstreamBehavior

/-- One outbound HTTP POST issued by requests.post: target URL, JSON body,
timeout in seconds, and the content-type header of the request. -/
structure ForwardRequest where
  url : String
  body : Json
  timeout : Nat
  contentTypeHeader : String

/-- Result of the forward block at lines 73-91: the local_success flag, the
local_error message, and the list of outbound POSTs issued while executing
the block. -/
structure ForwardResult where
  ok : Bool
  err : Option String
  sent : List ForwardRequest

/-- What a handler returns: the JSON response body, the HTTP status code,
and the outbound POSTs issued during the handling of the request. -/
structure HandlerResult where
  body : Json
  httpStatus : Nat
  sent : List ForwardRequest

/-- Message of the BadRequest exception raised by request.get_json when the
body under an application/json content type does not parse. -/
def jsonDecodeError : String :=
  "Failed to decode JSON object"

/-- Message of the TypeError raised by item assignment on a non-mapping
value (list, str, int, NoneType, bool). -/
def typeErrorMsg : String :=
  "TypeError: object does not support item assignment"

/-- Lines 49-60: the normalization fallback chain.  Under a JSON
content-type the body is parsed by request.get_json and a parse failure
raises (propagating to the outer except at line 108).  Otherwise the form
fields are used when there is at least one; otherwise json.loads of the raw
text is tried, its failure swallowed by the bare except at line 59, falling
back to wrapping the raw text under the message key. -/
def normalize (req : WebRequest) : Except String Json :=
  if containsSubstr req.contentType "application/json" then
    match req.bodyJson with
    | some j => Except.ok j
    | none => Except.error jsonDecodeError
  else
    if req.formFields.isEmpty then
      match req.bodyJson with
      | some j => Except.ok j
      | none => Except.ok (Json.obj [("message", Json.str req.rawText)])
    else
      Except.ok (Json.obj (req.formFields.map (fun p => (p.1, Json.str p.2))))

/-- Line 41: request.headers.get(X-Forwarded-For, request.remote_addr). -/
def clientIp (req : WebRequest) : String :=
  req.xForwardedFor.getD req.remoteAddr

/-- Lines 63-65: the three item assignments adding receipt metadata.  On a
mapping they set heroku_received_at, heroku_timestamp and client_ip in that
order; on any non-mapping value the first assignment raises TypeError,
which propagates to the outer except at line 108. -/
def enrich (data : Json) (ip : String) (c : Clock) : Except String Json :=
  match data with
  | Json.obj fields =>
    Except.ok (Json.obj
      (setKey
        (setKey
          (setKey fields "heroku_received_at" (Json.num c.receivedAt))
          "heroku_timestamp" (Json.str c.utcString))
        "client_ip" (Json.str ip)))
  | _ => Except.error typeErrorMsg

/-- Lines 73-91: the single forward attempt.  requests.post is called
exactly once with LOCAL_SERVER_URL/webhook, the enriched data as JSON body,
timeout 10 and an application/json content-type header.  local_success is
true exactly on a 200 status; any other status records an error message
containing the status code; a network-level failure is caught at line 89
and records a connection-failure message containing the exception text. -/
def forwardStep (localServerUrl : String) (data : Json) (d : DownstreamBehavior) :
    ForwardResult where
  ok :=
    match d with
    | DownstreamBehavior.responds s => s == 200
    | DownstreamBehavior.netError _ => false
  err :=
    match d with
    | DownstreamBehavior.responds s =>
      if s == 200 then none
      else some ("로컬 서버 응답 오류: " ++ toString s)
    | DownstreamBehavior.netError m =>
      some ("로컬 서버 연결 실패: " ++ m)
  sent := [⟨localServerUrl ++ "/webhook", data, 10, "application/json"⟩]

/-- jsonify renders Python None as JSON null. -/
def optionToJson : Option String → Json
  | some s => Json.str s
  | none => Json.null

/-- Lines 108-114: the outer except builds a 500 response holding exactly
the success flag, the stringified exception and a fixed message; no
forward attempt has been or will be made on this path when the exception
was raised before line 73. -/
def errorResult (e : String) : HandlerResult where
  body := Json.obj
    [("success", Json.bool false),
     ("error", Json.str e),
     ("message", Json.str "웹훅 처리 중 오류 발생")]
  httpStatus := 500
  sent := []

/-- Lines 36-114: the /webhook handler.  Normalize, enrich, forward once,
and acknowledge with HTTP 200 and top-level success true whatever the
delivery outcome; an exception during normalization or enrichment yields
the 500 error response instead, with no forward attempt. -/
def handleWebhook (localServerUrl : String) (req : WebRequest) (c : Clock)
    (d : DownstreamBehavior) : HandlerResult :=
  match normalize req with
  | Except.error e => errorResult e
  | Except.ok data =>
    match enrich data (clientIp req) c with
    | Except.error e => errorResult e
    | Except.ok enriched =>
      let fwd := forwardStep localServerUrl enriched d
      { body := Json.obj
          [("success", Json.bool true),
           ("message", Json.str "헤로쿠에서 웹훅 수신 완료"),
           ("timestamp", Json.num c.responseAt),
           ("data_received", enriched),
           ("local_delivery", Json.obj
             [("success", Json.bool fwd.ok),
              ("error", optionToJson fwd.err),
              ("target_url", Json.str localServerUrl)])]
        httpStatus := 200
        sent := fwd.sent }

/-- Lines 119-127: the fixed synthetic payload built by the /test
endpoint before forwarding. -/
def testData (now : Int) : Json :=
  Json.obj
    [("symbol", Json.str "BTCUSDT"),
     ("action", Json.str "buy"),
     ("price", Json.num 45000),
     ("strategy", Json.str "test_strategy"),
     ("timestamp", Json.num now),
     ("test", Json.bool true),
     ("source", Json.str "heroku_test")]

/-- Lines 116-150: the /test handler.  It posts the synthetic payload once
(requests.post with a JSON body sets an application/json content-type
header) and reports success true with the downstream status under
local_response when the call returns a response, success false with the
exception text when the call raises.  The truthiness test at line 141 is
the requests Response boolean, which holds exactly when the status code is
below 400, so local_response degrades to the string No response for any
4xx or 5xx downstream status.  jsonify without an explicit code answers
HTTP 200 on both paths. -/
def handleTest (localServerUrl : String) (now : Int) (d : DownstreamBehavior) :
    HandlerResult :=
  let td := testData now
  let fr : ForwardRequest := ⟨localServerUrl ++ "/webhook", td, 10, "application/json"⟩
  match d with
  | DownstreamBehavior.responds s =>
    { body := Json.obj
        [("success", Json.bool true),
         ("message", Json.str "테스트 웹훅 전송 완료"),
         ("test_data", td),
         ("local_response", if s < 400 then Json.num s else Json.str "No response")]
      httpStatus := 200
      sent := [fr] }
  | DownstreamBehavior.netError m =>
    { body := Json.obj
        [("success", Json.bool false),
         ("error", Json.str m),
         ("message", Json.str "테스트 웹훅 전송 실패"),
         ("test_data", td)]
      httpStatus := 200
      sent := [fr] }

/-! ## Helper lemmas -/

theorem leadMatch_self : ∀ l : List Char, leadMatch l l = true
  | [] => rfl
  | c :: cs => by simp [leadMatch, leadMatch_self cs]

theorem occursIn_append (pat ys : List Char) (h : leadMatch pat ys = true) :
    ∀ xs : List Char, occursIn pat (xs ++ ys) = true
  | [] => by
    cases ys with
    | nil =>
      cases pat with
      | nil => rfl
      | cons p ps => simp [leadMatch] at h
    | cons c cs => simp [occursIn, h]
  | x :: xs => by simp [occursIn, occursIn_append pat ys h xs]

theorem containsSubstr_append_right (a b : String) :
    containsSubstr (a ++ b) b = true := by
  show occursIn b.data (a ++ b).data = true
  have hdata : (a ++ b).data = a.data ++ b.data := rfl
  rw [hdata]
  exact occursIn_append b.data b.data (leadMatch_self b.data) a.data

theorem lookup_setKey_self (k : String) (v : Json) :
    ∀ m : List (String × Json), (setKey m k v).lookup k = some v
  | [] => by simp [setKey, List.lookup]
  | (k2, v2) :: rest => by
    by_cases h : k2 = k
    · simp [setKey, h, List.lookup]
    · have h2 : (k == k2) = false := by
        simp [beq_iff_eq]
        exact fun hk => h hk.symm
      simp [setKey, h, List.lookup, h2, lookup_setKey_self k v rest]

theorem lookup_setKey_ne (k k2 : String) (v : Json) (hne : k2 ≠ k) :
    ∀ m : List (String × Json), (setKey m k v).lookup k2 = m.lookup k2
  | [] => by
    have h2 : (k2 == k) = false := by simp [beq_iff_eq, hne]
    simp [setKey, List.lookup, h2]
  | (k3, v3) :: rest => by
    by_cases h : k3 = k
    · subst h
      have h2 : (k2 == k3) = false := by simp [beq_iff_eq, hne]
      simp [setKey, List.lookup, h2]
    · simp [setKey, h, List.lookup, lookup_setKey_ne k k2 v hne rest]

theorem mem_objKeys_setKey (k k2 : String) (v : Json) :
    ∀ m : List (String × Json),
      (k2 ∈ objKeys (setKey m k v) ↔ k2 ∈ objKeys m ∨ k2 = k)
  | [] => by simp [setKey, objKeys]
  | (k3, v3) :: rest => by
    by_cases h : k3 = k
    · subst h
      simp only [setKey, beq_self_eq_true, if_pos, objKeys, List.map_cons,
        List.mem_cons]
      constructor
      · intro hmem
        exact Or.inl hmem
      · rintro (hmem | rfl)
        · exact hmem
        · exact Or.inl rfl
    · have hb : (k3 == k) = false := by simp [beq_iff_eq, h]
      simp only [setKey, hb, if_neg, Bool.false_eq_true, not_false_iff,
        objKeys, List.map_cons, List.mem_cons]
      rw [show List.map Prod.fst (setKey rest k v) = objKeys (setKey rest k v) from rfl,
        mem_objKeys_setKey k k2 v rest]
      simp [objKeys, or_assoc]

/-! ## Concrete sample inputs used by witnesses -/

/-- A clock with fixed readings. -/
def sampleClock : Clock :=
  { receivedAt := 1700000000
    utcString := "2023-11-14 22:13:20 UTC"
    responseAt := 1700000001 }

/-- A JSON object body as TradingView would send it. -/
def sampleObjBody : Json :=
  Json.obj [("symbol", Json.str "BTCUSDT"), ("action", Json.str "buy")]

/-- A request carrying sampleObjBody under a JSON content type. -/
def sampleJsonReq : WebRequest :=
  { contentType := "application/json"
    xForwardedFor := some "203.0.113.7"
    remoteAddr := "10.0.0.1"
    bodyJson := some sampleObjBody
    formFields := []
    rawText := "not used" }

/-- sampleObjBody after enrichment by sampleClock and sampleJsonReq. -/
def sampleEnriched : Json :=
  Json.obj
    [("symbol", Json.str "BTCUSDT"),
     ("action", Json.str "buy"),
     ("heroku_received_at", Json.num 1700000000),
     ("heroku_timestamp", Json.str "2023-11-14 22:13:20 UTC"),
     ("client_ip", Json.str "203.0.113.7")]

/-- A request whose body does not parse as JSON although the content type
declares JSON (with a charset parameter, exercising substring matching). -/
def badJsonReq : WebRequest :=
  { contentType := "application/json; charset=utf-8"
    xForwardedFor := none
    remoteAddr := "10.1.1.1"
    bodyJson := none
    formFields := []
    rawText := "\x7bbad json" }

/-- The configured downstream base URL used in witnesses (the source
default for LOCAL_SERVER_URL). -/
def sampleUrl : String := "http://localhost:8081"

/-! ## Claims -/

/-- C1: whenever normalization and enrichment complete without raising, the
/webhook handler answers HTTP 200 with top-level success true, for every
downstream behaviour (success, non-200 status, or network error), and the
delivery outcome (success flag, error description, target URL) is embedded
under the local_delivery field of the response body. -/
theorem webhook_ack_always_200 (url : String) (req : WebRequest) (c : Clock)
    (d : DownstreamBehavior) (data enriched : Json)
    (hn : normalize req = Except.ok data)
    (he : enrich data (clientIp req) c = Except.ok enriched) :
    (handleWebhook url req c d).httpStatus = 200 ∧
    (handleWebhook url req c d).body.getKey "success" = some (Json.bool true) ∧
    (handleWebhook url req c d).body.getKey "local_delivery" =
      some (Json.obj
        [("success", Json.bool (forwardStep url enriched d).ok),
         ("error", optionToJson (forwardStep url enriched d).err),
         ("target_url", Json.str url)]) := by
  refine ⟨?_, ?_, ?_⟩ <;> simp only [handleWebhook, hn, he] <;> rfl

/-- Witness for C1, at a concrete request whose downstream is unreachable:
status 200, success true, and the failed delivery reported in
local_delivery. -/
theorem webhook_ack_always_200_witness :
    (handleWebhook sampleUrl sampleJsonReq sampleClock
      (DownstreamBehavior.netError "connection refused")).httpStatus = 200 ∧
    (handleWebhook sampleUrl sampleJsonReq sampleClock
      (DownstreamBehavior.netError "connection refused")).body.getKey "success" =
      some (Json.bool true) ∧
    (handleWebhook sampleUrl sampleJsonReq sampleClock
      (DownstreamBehavior.netError "connection refused")).body.getKey "local_delivery" =
      some (Json.obj
        [("success", Json.bool (forwardStep sampleUrl sampleEnriched
            (DownstreamBehavior.netError "connection refused")).ok),
         ("error", optionToJson (forwardStep sampleUrl sampleEnriched
            (DownstreamBehavior.netError "connection refused")).err),
         ("target_url", Json.str sampleUrl)]) :=
  webhook_ack_always_200 sampleUrl sampleJsonReq sampleClock
    (DownstreamBehavior.netError "connection refused")
    sampleObjBody sampleEnriched rfl rfl

/-- C5: the forward attempt sets the delivery flag true with no error
exactly on downstream status 200; any other status yields flag false and an
error message containing the status code; a network-level failure yields
flag false and a message containing the underlying failure text; and none
of these outcomes changes the handler-level HTTP status, which is the same
whatever the downstream behaviour. -/
theorem forward_outcome_classification (url : String) (data : Json) :
    ((forwardStep url data (DownstreamBehavior.responds 200)).ok = true ∧
      (forwardStep url data (DownstreamBehavior.responds 200)).err = none)
  ∧ (∀ s : Nat, s ≠ 200 →
      (forwardStep url data (DownstreamBehavior.responds s)).ok = false ∧
      ∃ e, (forwardStep url data (DownstreamBehavior.responds s)).err = some e ∧
        containsSubstr e (toString s) = true)
  ∧ (∀ m : String,
      (forwardStep url data (DownstreamBehavior.netError m)).ok = false ∧
      ∃ e, (forwardStep url data (DownstreamBehavior.netError m)).err = some e ∧
        containsSubstr e m = true)
  ∧ (∀ (req : WebRequest) (c : Clock) (d d2 : DownstreamBehavior),
      (handleWebhook url req c d).httpStatus =
        (handleWebhook url req c d2).httpStatus) := by
  refine ⟨⟨rfl, rfl⟩, ?_, ?_, ?_⟩
  · intro s hs
    have hb : (s == 200) = false := by simp [hs]
    constructor
    · show (s == 200) = false
      exact hb
    · refine ⟨"로컬 서버 응답 오류: " ++ toString s, ?_, ?_⟩
      · show (if s == 200 then none else some ("로컬 서버 응답 오류: " ++ toString s)) =
          some ("로컬 서버 응답 오류: " ++ toString s)
        rw [hb]
        rfl
      · exact containsSubstr_append_right "로컬 서버 응답 오류: " (toString s)
  · intro m
    exact ⟨rfl, "로컬 서버 연결 실패: " ++ m, rfl,
      containsSubstr_append_right "로컬 서버 연결 실패: " m⟩
  · intro req c d d2
    cases hnr : normalize req with
    | error e => simp only [handleWebhook, hnr]
    | ok data2 =>
      cases her : enrich data2 (clientIp req) c with
      | error e => simp only [handleWebhook, hnr, her]
      | ok enriched =>
        simp only [handleWebhook, hnr, her]

/-- Witness for C5, at downstream status 503 and at a network timeout. -/
theorem forward_outcome_classification_witness :
    ((forwardStep sampleUrl sampleObjBody (DownstreamBehavior.responds 503)).ok = false ∧
      ∃ e, (forwardStep sampleUrl sampleObjBody (DownstreamBehavior.responds 503)).err =
          some e ∧
        containsSubstr e (toString 503) = true) ∧
    ((forwardStep sampleUrl sampleObjBody (DownstreamBehavior.netError "timeout")).ok = false ∧
      ∃ e, (forwardStep sampleUrl sampleObjBody (DownstreamBehavior.netError "timeout")).err =
          some e ∧
        containsSubstr e "timeout" = true) :=
  ⟨(forward_outcome_classification sampleUrl sampleObjBody).2.1 503 (by decide),
   (forward_outcome_classification sampleUrl sampleObjBody).2.2.1 "timeout"⟩

/-- C6: a body that does not parse as JSON under a content type containing
application/json makes the /webhook handler answer HTTP 500 with top-level
success false and an error description in the response body. -/
theorem malformed_json_gives_500 (url : String) (req : WebRequest) (c : Clock)
    (d : DownstreamBehavior)
    (hct : containsSubstr req.contentType "application/json" = true)
    (hb : req.bodyJson = none) :
    (handleWebhook url req c d).httpStatus = 500 ∧
    (handleWebhook url req c d).body.getKey "success" = some (Json.bool false) ∧
    ∃ e, (handleWebhook url req c d).body.getKey "error" = some (Json.str e) := by
  have hn : normalize req = Except.error jsonDecodeError := by
    simp [normalize, hct, hb]
  simp only [handleWebhook, hn]
  exact ⟨rfl, rfl, jsonDecodeError, rfl⟩

/-- Witness for C6, at a concrete malformed-JSON request. -/
theorem malformed_json_gives_500_witness :
    (handleWebhook sampleUrl badJsonReq sampleClock
      (DownstreamBehavior.responds 200)).httpStatus = 500 ∧
    (handleWebhook sampleUrl badJsonReq sampleClock
      (DownstreamBehavior.responds 200)).body.getKey "success" =
      some (Json.bool false) ∧
    ∃ e, (handleWebhook sampleUrl badJsonReq sampleClock
      (DownstreamBehavior.responds 200)).body.getKey "error" = some (Json.str e) :=
  malformed_json_gives_500 sampleUrl badJsonReq sampleClock
    (DownstreamBehavior.responds 200) rfl rfl

/-- C7: every request that reaches the forwarding step triggers exactly one
outbound POST, to the configured base URL extended with /webhook, carrying
the enriched mapping as JSON body, an application/json content type, and a
10-second timeout; no second attempt is made. -/
theorem single_forward_attempt (url : String) (req : WebRequest) (c : Clock)
    (d : DownstreamBehavior) (data enriched : Json)
    (hn : normalize req = Except.ok data)
    (he : enrich data (clientIp req) c = Except.ok enriched) :
    (handleWebhook url req c d).sent =
      [⟨url ++ "/webhook", enriched, 10, "application/json"⟩] := by
  simp only [handleWebhook, hn, he]
  rfl

/-- Witness for C7, at a concrete request and a failing downstream (the
attempt is made even when it will fail). -/
theorem single_forward_attempt_witness :
    (handleWebhook sampleUrl sampleJsonReq sampleClock
      (DownstreamBehavior.responds 500)).sent =
      [⟨sampleUrl ++ "/webhook", sampleEnriched, 10, "application/json"⟩] :=
  single_forward_attempt sampleUrl sampleJsonReq sampleClock
    (DownstreamBehavior.responds 500) sampleObjBody sampleEnriched rfl rfl

/-- A form-encoded request with one field. -/
def formReq : WebRequest :=
  { contentType := "application/x-www-form-urlencoded"
    xForwardedFor := none
    remoteAddr := "10.3.3.3"
    bodyJson := none
    formFields := [("symbol", "ETHUSDT")]
    rawText := "symbol=ETHUSDT" }

/-- A raw-text request whose body happens to parse as a JSON object. -/
def rawJsonReq : WebRequest :=
  { contentType := "text/plain"
    xForwardedFor := none
    remoteAddr := "10.4.4.4"
    bodyJson := some (Json.obj [("action", Json.str "sell")])
    formFields := []
    rawText := "JSON text" }

/-- A raw-text request whose body parses neither as form data nor as
JSON. -/
def rawTextReq : WebRequest :=
  { contentType := "text/plain"
    xForwardedFor := none
    remoteAddr := "10.5.5.5"
    bodyJson := none
    formFields := []
    rawText := "hello world" }

/-- C2: normalization is the ordered fallback chain in which the first
match wins.  Under a content type containing application/json the body is
parsed as JSON, with a parse failure raising rather than being caught at
this step; otherwise the form fields are used when at least one exists;
otherwise a successful JSON parse of the raw text is used; otherwise the
raw text is wrapped as a mapping under the message key, the JSON parse
failure of the previous step being swallowed (an ok result, never an
error). -/
theorem normalization_fallback_chain (req : WebRequest) :
    (containsSubstr req.contentType "application/json" = true →
      normalize req =
        (match req.bodyJson with
         | some j => Except.ok j
         | none => Except.error jsonDecodeError))
  ∧ (containsSubstr req.contentType "application/json" = false →
      req.formFields.isEmpty = false →
      normalize req =
        Except.ok (Json.obj (req.formFields.map (fun p => (p.1, Json.str p.2)))))
  ∧ (containsSubstr req.contentType "application/json" = false →
      req.formFields.isEmpty = true →
      ∀ j, req.bodyJson = some j → normalize req = Except.ok j)
  ∧ (containsSubstr req.contentType "application/json" = false →
      req.formFields.isEmpty = true →
      req.bodyJson = none →
      normalize req = Except.ok (Json.obj [("message", Json.str req.rawText)])) := by
  refine ⟨?_, ?_, ?_, ?_⟩
  · intro hct
    simp [normalize, hct]
  · intro hct hform
    simp [normalize, hct, hform]
  · intro hct hform j hj
    simp [normalize, hct, hform, hj]
  · intro hct hform hj
    simp [normalize, hct, hform, hj]

/-- Witness for C2: the four steps of the chain, each at a concrete
request on which its guards hold. -/
theorem normalization_fallback_chain_witness :
    (normalize sampleJsonReq =
      (match sampleJsonReq.bodyJson with
       | some j => Except.ok j
       | none => Except.error jsonDecodeError)) ∧
    (normalize formReq =
      Except.ok (Json.obj (formReq.formFields.map (fun p => (p.1, Json.str p.2))))) ∧
    (normalize rawJsonReq = Except.ok (Json.obj [("action", Json.str "sell")])) ∧
    (normalize rawTextReq =
      Except.ok (Json.obj [("message", Json.str rawTextReq.rawText)])) :=
  ⟨(normalization_fallback_chain sampleJsonReq).1 rfl,
   (normalization_fallback_chain formReq).2.1 rfl rfl,
   (normalization_fallback_chain rawJsonReq).2.2.1 rfl rfl
     (Json.obj [("action", Json.str "sell")]) rfl,
   (normalization_fallback_chain rawTextReq).2.2.2 rfl rfl rfl⟩

/-- A request whose JSON body is a bare number: the raised TypeError of the
enrichment step makes the handler take the 500 path. -/
def numJsonReq : WebRequest :=
  { contentType := "application/json"
    xForwardedFor := none
    remoteAddr := "10.6.6.6"
    bodyJson := some (Json.num 42)
    formFields := []
    rawText := "42" }

/-- C9: when normalization or enrichment raises, no downstream POST is
issued at all, and the 500 response body consists of exactly the success
flag, the error string and the fixed message, with no local_delivery field
and no echoed payload. -/
theorem error_path_skips_forwarding (url : String) (req : WebRequest)
    (c : Clock) (d : DownstreamBehavior) :
    (∀ e, normalize req = Except.error e →
      (handleWebhook url req c d).sent = [] ∧
      (handleWebhook url req c d).body =
        Json.obj
          [("success", Json.bool false),
           ("error", Json.str e),
           ("message", Json.str "웹훅 처리 중 오류 발생")] ∧
      (handleWebhook url req c d).httpStatus = 500)
  ∧ (∀ data e, normalize req = Except.ok data →
      enrich data (clientIp req) c = Except.error e →
      (handleWebhook url req c d).sent = [] ∧
      (handleWebhook url req c d).body =
        Json.obj
          [("success", Json.bool false),
           ("error", Json.str e),
           ("message", Json.str "웹훅 처리 중 오류 발생")] ∧
      (handleWebhook url req c d).httpStatus = 500) := by
  constructor
  · intro e hn
    refine ⟨?_, ?_, ?_⟩ <;> simp only [handleWebhook, hn] <;> rfl
  · intro data e hn he
    refine ⟨?_, ?_, ?_⟩ <;> simp only [handleWebhook, hn, he] <;> rfl

/-- Witness for C9: once at a request whose normalization raises, once at
a request whose enrichment raises. -/
theorem error_path_skips_forwarding_witness :
    ((handleWebhook sampleUrl badJsonReq sampleClock
        (DownstreamBehavior.responds 200)).sent = [] ∧
      (handleWebhook sampleUrl badJsonReq sampleClock
        (DownstreamBehavior.responds 200)).body =
        Json.obj
          [("success", Json.bool false),
           ("error", Json.str jsonDecodeError),
           ("message", Json.str "웹훅 처리 중 오류 발생")] ∧
      (handleWebhook sampleUrl badJsonReq sampleClock
        (DownstreamBehavior.responds 200)).httpStatus = 500) ∧
    ((handleWebhook sampleUrl numJsonReq sampleClock
        (DownstreamBehavior.responds 200)).sent = [] ∧
      (handleWebhook sampleUrl numJsonReq sampleClock
        (DownstreamBehavior.responds 200)).body =
        Json.obj
          [("success", Json.bool false),
           ("error", Json.str typeErrorMsg),
           ("message", Json.str "웹훅 처리 중 오류 발생")] ∧
      (handleWebhook sampleUrl numJsonReq sampleClock
        (DownstreamBehavior.responds 200)).httpStatus = 500) :=
  ⟨(error_path_skips_forwarding sampleUrl badJsonReq sampleClock
      (DownstreamBehavior.responds 200)).1 jsonDecodeError rfl,
   (error_path_skips_forwarding sampleUrl numJsonReq sampleClock
      (DownstreamBehavior.responds 200)).2 (Json.num 42) typeErrorMsg rfl rfl⟩

/-- A request whose body is the valid JSON array text, under a JSON
content type. -/
def arrayJsonReq : WebRequest :=
  { contentType := "application/json"
    xForwardedFor := none
    remoteAddr := "10.7.7.7"
    bodyJson := some (Json.arr [Json.num 1, Json.num 2])
    formFields := []
    rawText := "[1, 2]" }

/-- Counterexample to C3: a syntactically valid JSON body denoting an
array, received under a JSON content-type, does not reach the forwarding
step; the item assignment of the enrichment step raises TypeError and the
handler answers on the 500 error path with no outbound POST. -/
theorem nonobject_json_hits_500_path :
    (handleWebhook sampleUrl arrayJsonReq sampleClock
      (DownstreamBehavior.responds 200)).httpStatus = 500 ∧
    (handleWebhook sampleUrl arrayJsonReq sampleClock
      (DownstreamBehavior.responds 200)).sent = [] ∧
    (handleWebhook sampleUrl arrayJsonReq sampleClock
      (DownstreamBehavior.responds 200)).body.getKey "success" =
      some (Json.bool false) :=
  ⟨rfl, rfl, rfl⟩

/-- C3 as amended: the normalized payload reaches enrichment and
forwarding exactly when it is a key-value mapping.  Form-encoded bodies and
unparseable raw text always produce a mapping, but a body that parses as a
JSON non-object value (array, string, number, boolean or null) — whether
under a JSON content-type or through the raw-text JSON fallback — makes
enrichment raise, so the request takes the 500 error path and is never
forwarded. -/
theorem forwarding_reached_iff_mapping (url : String) (req : WebRequest)
    (c : Clock) (d : DownstreamBehavior) (data : Json)
    (hn : normalize req = Except.ok data) :
    (data.isObj = true →
      (handleWebhook url req c d).httpStatus = 200 ∧
      (handleWebhook url req c d).sent.length = 1)
  ∧ (data.isObj = false →
      (handleWebhook url req c d).httpStatus = 500 ∧
      (handleWebhook url req c d).sent = []) := by
  constructor
  · intro hobj
    cases data with
    | obj fields =>
      refine ⟨?_, ?_⟩ <;> simp only [handleWebhook, hn] <;> rfl
    | null => simp [Json.isObj] at hobj
    | bool b => simp [Json.isObj] at hobj
    | num n => simp [Json.isObj] at hobj
    | str s => simp [Json.isObj] at hobj
    | arr items => simp [Json.isObj] at hobj
  · intro hobj
    cases data with
    | obj fields => simp [Json.isObj] at hobj
    | null => refine ⟨?_, ?_⟩ <;> simp only [handleWebhook, hn] <;> rfl
    | bool b => refine ⟨?_, ?_⟩ <;> simp only [handleWebhook, hn] <;> rfl
    | num n => refine ⟨?_, ?_⟩ <;> simp only [handleWebhook, hn] <;> rfl
    | str s => refine ⟨?_, ?_⟩ <;> simp only [handleWebhook, hn] <;> rfl
    | arr items => refine ⟨?_, ?_⟩ <;> simp only [handleWebhook, hn] <;> rfl

/-- Witness for the amended C3: a mapping body is forwarded, an array body
takes the 500 path. -/
theorem forwarding_reached_iff_mapping_witness :
    ((handleWebhook sampleUrl sampleJsonReq sampleClock
        (DownstreamBehavior.responds 200)).httpStatus = 200 ∧
      (handleWebhook sampleUrl sampleJsonReq sampleClock
        (DownstreamBehavior.responds 200)).sent.length = 1) ∧
    ((handleWebhook sampleUrl arrayJsonReq sampleClock
        (DownstreamBehavior.responds 200)).httpStatus = 500 ∧
      (handleWebhook sampleUrl arrayJsonReq sampleClock
        (DownstreamBehavior.responds 200)).sent = []) :=
  ⟨(forwarding_reached_iff_mapping sampleUrl sampleJsonReq sampleClock
      (DownstreamBehavior.responds 200) sampleObjBody rfl).1 rfl,
   (forwarding_reached_iff_mapping sampleUrl arrayJsonReq sampleClock
      (DownstreamBehavior.responds 200) (Json.arr [Json.num 1, Json.num 2]) rfl).2 rfl⟩

/-- C4: for a valid JSON object body under a JSON content type, the echoed
payload under data_received holds every key of the original body plus
exactly the three enrichment fields heroku_received_at (epoch seconds),
heroku_timestamp (formatted UTC string) and client_ip, the latter being the
forwarded-for header value when present and the transport peer address
otherwise. -/
theorem json_body_enrichment (url : String) (req : WebRequest) (c : Clock)
    (d : DownstreamBehavior) (fields : List (String × Json))
    (hct : containsSubstr req.contentType "application/json" = true)
    (hb : req.bodyJson = some (Json.obj fields)) :
    ∃ ef : List (String × Json),
      (handleWebhook url req c d).body.getKey "data_received" =
        some (Json.obj ef) ∧
      (∀ k, k ∈ objKeys ef ↔
        (k ∈ objKeys fields ∨ k = "heroku_received_at" ∨
          k = "heroku_timestamp" ∨ k = "client_ip")) ∧
      ef.lookup "heroku_received_at" = some (Json.num c.receivedAt) ∧
      ef.lookup "heroku_timestamp" = some (Json.str c.utcString) ∧
      ef.lookup "client_ip" =
        some (Json.str
          (match req.xForwardedFor with
           | some fwdIp => fwdIp
           | none => req.remoteAddr)) := by
  have hn : normalize req = Except.ok (Json.obj fields) := by
    simp [normalize, hct, hb]
  refine ⟨setKey (setKey (setKey fields "heroku_received_at"
      (Json.num c.receivedAt)) "heroku_timestamp" (Json.str c.utcString))
      "client_ip" (Json.str (clientIp req)), ?_, ?_, ?_, ?_, ?_⟩
  · simp only [handleWebhook, hn]
    rfl
  · intro k
    rw [mem_objKeys_setKey, mem_objKeys_setKey, mem_objKeys_setKey]
    tauto
  · rw [lookup_setKey_ne _ _ _ (by decide), lookup_setKey_ne _ _ _ (by decide),
      lookup_setKey_self]
  · rw [lookup_setKey_ne _ _ _ (by decide), lookup_setKey_self]
  · rw [lookup_setKey_self]
    cases hx : req.xForwardedFor with
    | some fwdIp => simp [clientIp, hx]
    | none => simp [clientIp, hx]

/-- Witness for C4 at a concrete two-key JSON body with a forwarded-for
header. -/
theorem json_body_enrichment_witness :
    ∃ ef : List (String × Json),
      (handleWebhook sampleUrl sampleJsonReq sampleClock
        (DownstreamBehavior.responds 200)).body.getKey "data_received" =
        some (Json.obj ef) ∧
      (∀ k, k ∈ objKeys ef ↔
        (k ∈ objKeys [("symbol", Json.str "BTCUSDT"), ("action", Json.str "buy")] ∨
          k = "heroku_received_at" ∨ k = "heroku_timestamp" ∨ k = "client_ip")) ∧
      ef.lookup "heroku_received_at" = some (Json.num sampleClock.receivedAt) ∧
      ef.lookup "heroku_timestamp" = some (Json.str sampleClock.utcString) ∧
      ef.lookup "client_ip" =
        some (Json.str
          (match sampleJsonReq.xForwardedFor with
           | some fwdIp => fwdIp
           | none => sampleJsonReq.remoteAddr)) :=
  json_body_enrichment sampleUrl sampleJsonReq sampleClock
    (DownstreamBehavior.responds 200)
    [("symbol", Json.str "BTCUSDT"), ("action", Json.str "buy")] rfl rfl

/-- C8: every invocation of the /test endpoint builds, before forwarding, a
payload whose symbol is BTCUSDT, action is buy, price is 45000, strategy is
test_strategy and test flag is true; and that very payload is the body of
the single outbound POST. -/
theorem test_payload_fields (now : Int) :
    (testData now).getKey "symbol" = some (Json.str "BTCUSDT") ∧
    (testData now).getKey "action" = some (Json.str "buy") ∧
    (testData now).getKey "price" = some (Json.num 45000) ∧
    (testData now).getKey "strategy" = some (Json.str "test_strategy") ∧
    (testData now).getKey "test" = some (Json.bool true) ∧
    ∀ (url : String) (d : DownstreamBehavior),
      (handleTest url now d).sent =
        [⟨url ++ "/webhook", testData now, 10, "application/json"⟩] := by
  refine ⟨rfl, rfl, rfl, rfl, rfl, ?_⟩
  intro url d
  cases d with
  | responds s => rfl
  | netError m => rfl

/-- Counterexample to C10: on a downstream 404 response the /test handler
still reports success true, but the status code is not reported under
local_response; the requests Response object is falsy for any status of
400 or above, so the string No response is reported instead. -/
theorem test_local_response_hides_error_status :
    (handleTest sampleUrl 1700000000 (DownstreamBehavior.responds 404)).body.getKey
      "success" = some (Json.bool true) ∧
    (handleTest sampleUrl 1700000000 (DownstreamBehavior.responds 404)).body.getKey
      "local_response" = some (Json.str "No response") ∧
    (handleTest sampleUrl 1700000000 (DownstreamBehavior.responds 404)).body.getKey
      "local_response" ≠ some (Json.num 404) := by
  refine ⟨rfl, rfl, fun h => ?_⟩
  have h2 : some (Json.str "No response") = some (Json.num 404) := h
  exact Json.noConfusion (Option.some.inj h2)

/-- C10 as amended: the /test response always carries HTTP status 200; its
top-level success flag is true whenever the downstream call returns any
HTTP response, with the status code reported under local_response only for
statuses below 400 and the string No response reported for 4xx and 5xx
statuses; success is false exactly when the forward call raises. -/
theorem test_endpoint_success_reporting (url : String) (now : Int) :
    (∀ s : Nat,
      (handleTest url now (DownstreamBehavior.responds s)).httpStatus = 200 ∧
      (handleTest url now (DownstreamBehavior.responds s)).body.getKey "success" =
        some (Json.bool true) ∧
      (handleTest url now (DownstreamBehavior.responds s)).body.getKey "local_response" =
        some (if s < 400 then Json.num s else Json.str "No response"))
  ∧ (∀ m : String,
      (handleTest url now (DownstreamBehavior.netError m)).httpStatus = 200 ∧
      (handleTest url now (DownstreamBehavior.netError m)).body.getKey "success" =
        some (Json.bool false) ∧
      (handleTest url now (DownstreamBehavior.netError m)).body.getKey "error" =
        some (Json.str m)) := by
  constructor
  · intro s
    exact ⟨rfl, rfl, rfl⟩
  · intro m
    exact ⟨rfl, rfl, rfl⟩

end HerokuWebhook
